import Mathlib

/-!
# Verification of the unified2 record framer and decoders

A shallow embedding of `src/unified2.go` (package `unified2`, a decoder for
unified v2 log files produced by Snort and Suricata).

Bytes are modelled as natural numbers (values of a real stream are < 256);
all multi-byte integers in the format are big-endian, captured by `beVal`.
Fallible operations return `Option` / `Except`.  The seekable stream handed
to the framer is modelled as `FileStream`: its full contents plus a cursor.
`Read` on such a stream follows the `os.File` contract: it returns
`min requested available` bytes, and the `io.EOF` error exactly when the
buffer is non-empty and no bytes are available.
-/

namespace Unified2

/-- Unified2 record type tags (the Go constant block). -/
def UNIFIED2_PACKET : Nat := 2
def UNIFIED2_IDS_EVENT : Nat := 7
def UNIFIED2_IDS_EVENT_IP6 : Nat := 72
def UNIFIED2_IDS_EVENT_V2 : Nat := 104
def UNIFIED2_IDS_EVENT_IP6_V2 : Nat := 105
def UNIFIED2_EXTRA_DATA : Nat := 110

/-- Big-endian value of a byte sequence (`encoding/binary.BigEndian`). -/
def beVal (l : List Nat) : Nat := l.foldl (fun acc b => acc * 256 + b) 0

/-- `io.ReadFull`-style read of exactly `n` bytes from the front of a
buffer, as `binary.Read` does from a `bytes.Buffer`: succeeds with the
first `n` bytes and the rest, fails when fewer than `n` bytes remain. -/
def readN (n : Nat) (data : List Nat) : Option (List Nat × List Nat) :=
  if n ≤ data.length then some (data.take n, data.drop n) else none

/-- `binary.Read` of a big-endian `uint32` from a buffer. -/
def readU32 (data : List Nat) : Option (Nat × List Nat) :=
  (readN 4 data).map (fun p => (beVal p.1, p.2))

/-- `binary.Read` of a big-endian `uint16` from a buffer. -/
def readU16 (data : List Nat) : Option (Nat × List Nat) :=
  (readN 2 data).map (fun p => (beVal p.1, p.2))

/-- `binary.Read` of a `uint8` from a buffer. -/
def readU8 (data : List Nat) : Option (Nat × List Nat) :=
  (readN 1 data).map (fun p => (beVal p.1, p.2))

/-- `IsEventType` from the Go source. -/
def IsEventType (recordType : Nat) : Bool :=
  recordType = UNIFIED2_IDS_EVENT ∨ recordType = UNIFIED2_IDS_EVENT_IP6 ∨
    recordType = UNIFIED2_IDS_EVENT_V2 ∨ recordType = UNIFIED2_IDS_EVENT_IP6_V2

/-- Decoded event record (Go struct `EventRecord`); fields default to
zero / empty exactly as `&EventRecord{}` does. -/
structure EventRecord where
  SensorId : Nat := 0
  EventId : Nat := 0
  EventSecond : Nat := 0
  EventMicrosecond : Nat := 0
  SignatureId : Nat := 0
  GeneratorId : Nat := 0
  SignatureRevision : Nat := 0
  ClassificationId : Nat := 0
  Priority : Nat := 0
  IpSource : List Nat := []
  IpDestination : List Nat := []
  SportItype : Nat := 0
  DportIcode : Nat := 0
  Protocol : Nat := 0
  ImpactFlag : Nat := 0
  Impact : Nat := 0
  Blocked : Nat := 0
  MplsLabel : Nat := 0
  VlanId : Nat := 0
  deriving Repr, DecidableEq

/-- Decoded packet record (Go struct `PacketRecord`). -/
structure PacketRecord where
  SensorId : Nat := 0
  EventId : Nat := 0
  EventSecond : Nat := 0
  PacketSecond : Nat := 0
  PacketMicrosecond : Nat := 0
  LinkType : Nat := 0
  Length : Nat := 0
  Data : List Nat := []
  deriving Repr, DecidableEq

/-- Length of a PacketRecord before variable length data. -/
def PACKET_RECORD_HDR_LEN : Nat := 28

/-- Decoded extra data record (Go struct `ExtraDataRecord`). -/
structure ExtraDataRecord where
  EventType : Nat := 0
  EventLength : Nat := 0
  SensorId : Nat := 0
  EventId : Nat := 0
  EventSecond : Nat := 0
  «Type» : Nat := 0
  DataType : Nat := 0
  DataLength : Nat := 0
  Data : List Nat := []
  deriving Repr, DecidableEq

/-- Length of an ExtraDataRecord before variable length data. -/
def EXTRA_DATA_RECORD_HDR_LEN : Nat := 32

/-- The nine fixed `uint32` preamble reads of `DecodeEventRecord`
(SensorId through Priority), in source order. -/
def readEventPreamble (data : List Nat) :
    Option ((Nat × Nat × Nat × Nat × Nat × Nat × Nat × Nat × Nat) × List Nat) := do
  let (sensorId, r) ← readU32 data
  let (eventId, r) ← readU32 r
  let (eventSecond, r) ← readU32 r
  let (eventMicrosecond, r) ← readU32 r
  let (signatureId, r) ← readU32 r
  let (generatorId, r) ← readU32 r
  let (signatureRevision, r) ← readU32 r
  let (classificationId, r) ← readU32 r
  let (priority, r) ← readU32 r
  pure ((sensorId, eventId, eventSecond, eventMicrosecond, signatureId,
         generatorId, signatureRevision, classificationId, priority), r)

/-- The first `switch eventType` of `DecodeEventRecord`: source and
destination addresses, 4 bytes each for the two v4 tags, 16 bytes each
for the two v6 tags; no default case, so any other tag reads nothing and
leaves both addresses at their zero value (`nil`). -/
def readEventAddrs (eventType : Nat) (r : List Nat) :
    Option (List Nat × List Nat × List Nat) :=
  if eventType = UNIFIED2_IDS_EVENT ∨ eventType = UNIFIED2_IDS_EVENT_V2 then do
    let (src, r) ← readN 4 r
    let (dst, r) ← readN 4 r
    pure (src, dst, r)
  else if eventType = UNIFIED2_IDS_EVENT_IP6 ∨ eventType = UNIFIED2_IDS_EVENT_IP6_V2 then do
    let (src, r) ← readN 16 r
    let (dst, r) ← readN 16 r
    pure (src, dst, r)
  else
    pure (([] : List Nat), ([] : List Nat), r)

/-- The six mid fields of `DecodeEventRecord`: SportItype, DportIcode
(`uint16`), Protocol, ImpactFlag, Impact, Blocked (`uint8`). -/
def readEventMid (data : List Nat) :
    Option ((Nat × Nat × Nat × Nat × Nat × Nat) × List Nat) := do
  let (sportItype, r) ← readU16 data
  let (dportIcode, r) ← readU16 r
  let (protocol, r) ← readU8 r
  let (impactFlag, r) ← readU8 r
  let (impact, r) ← readU8 r
  let (blocked, r) ← readU8 r
  pure ((sportItype, dportIcode, protocol, impactFlag, impact, blocked), r)

/-- The second `switch eventType` of `DecodeEventRecord`: the two v2 tags
additionally read MplsLabel (`uint32`) and VlanId (`uint16`); no default
case, so any other tag reads nothing and leaves both at zero. -/
def readEventV2Tail (eventType : Nat) (r : List Nat) :
    Option (Nat × Nat × List Nat) :=
  if eventType = UNIFIED2_IDS_EVENT_V2 ∨ eventType = UNIFIED2_IDS_EVENT_IP6_V2 then do
    let (m, r) ← readU32 r
    let (v, r) ← readU16 r
    pure (m, v, r)
  else
    pure (0, 0, r)

/-- `DecodeEventRecord`, with the final state of the `bytes.Buffer` reader
exposed (the bytes left unconsumed).  Field reads happen in the order of
the Go source, split here into its four sections. -/
def DecodeEventRecordAux (eventType : Nat) (data : List Nat) :
    Option (EventRecord × List Nat) := do
  let ((sensorId, eventId, eventSecond, eventMicrosecond, signatureId,
        generatorId, signatureRevision, classificationId, priority), r) ←
    readEventPreamble data
  let (ipSource, ipDestination, r) ← readEventAddrs eventType r
  let ((sportItype, dportIcode, protocol, impactFlag, impact, blocked), r) ←
    readEventMid r
  let (mplsLabel, vlanId, r) ← readEventV2Tail eventType r
  pure ({ SensorId := sensorId, EventId := eventId, EventSecond := eventSecond,
          EventMicrosecond := eventMicrosecond, SignatureId := signatureId,
          GeneratorId := generatorId, SignatureRevision := signatureRevision,
          ClassificationId := classificationId, Priority := priority,
          IpSource := ipSource, IpDestination := ipDestination,
          SportItype := sportItype, DportIcode := dportIcode,
          Protocol := protocol, ImpactFlag := impactFlag, Impact := impact,
          Blocked := blocked, MplsLabel := mplsLabel, VlanId := vlanId }, r)

/-- `DecodeEventRecord` as exposed by the Go package: only the record,
or `DecodingError` (here `none`). -/
def DecodeEventRecord (eventType : Nat) (data : List Nat) : Option EventRecord :=
  (DecodeEventRecordAux eventType data).map Prod.fst

/-- `DecodePacketRecord`: seven big-endian `uint32` reads, then the rest of
`data` from offset `PACKET_RECORD_HDR_LEN` becomes the tail verbatim. -/
def DecodePacketRecord (data : List Nat) : Option PacketRecord := do
  let (sensorId, r) ← readU32 data
  let (eventId, r) ← readU32 r
  let (eventSecond, r) ← readU32 r
  let (packetSecond, r) ← readU32 r
  let (packetMicrosecond, r) ← readU32 r
  let (linkType, r) ← readU32 r
  let (length, _) ← readU32 r
  pure { SensorId := sensorId, EventId := eventId, EventSecond := eventSecond,
         PacketSecond := packetSecond, PacketMicrosecond := packetMicrosecond,
         LinkType := linkType, Length := length,
         Data := data.drop PACKET_RECORD_HDR_LEN }

/-- `DecodeExtraDataRecord`: eight big-endian `uint32` reads, then the rest
of `data` from offset `EXTRA_DATA_RECORD_HDR_LEN` becomes the tail. -/
def DecodeExtraDataRecord (data : List Nat) : Option ExtraDataRecord := do
  let (eventType, r) ← readU32 data
  let (eventLength, r) ← readU32 r
  let (sensorId, r) ← readU32 r
  let (eventId, r) ← readU32 r
  let (eventSecond, r) ← readU32 r
  let (type_, r) ← readU32 r
  let (dataType, r) ← readU32 r
  let (dataLength, _) ← readU32 r
  pure { EventType := eventType, EventLength := eventLength,
         SensorId := sensorId, EventId := eventId, EventSecond := eventSecond,
         «Type» := type_, DataType := dataType, DataLength := dataLength,
         Data := data.drop EXTRA_DATA_RECORD_HDR_LEN }

deriving instance DecidableEq for Except

/-- A raw un-decoded record (Go struct `RawRecord`). -/
structure RawRecord where
  «Type» : Nat
  Data : List Nat
  deriving Repr, DecidableEq

/-- The seekable stream handed to the framer: full contents plus the
current cursor position. -/
structure FileStream where
  content : List Nat
  pos : Nat
  deriving Repr, DecidableEq

/-- Bytes available at the current position. -/
def FileStream.avail (f : FileStream) : Nat := f.content.length - f.pos

/-- Errors the framer can return: `io.EOF` and `io.ErrUnexpectedEOF`. -/
inductive ReadErr where
  | eof
  | unexpectedEof
  deriving Repr, DecidableEq

/-- The `Type` field of the 8-byte record header at the current position
(meaningful only when 8 bytes are available). -/
def FileStream.hdrType (f : FileStream) : Nat :=
  beVal ((f.content.drop f.pos).take 4)

/-- The `Len` field of the 8-byte record header at the current position
(meaningful only when 8 bytes are available). -/
def FileStream.hdrLen (f : FileStream) : Nat :=
  beVal ((f.content.drop (f.pos + 4)).take 4)

/-- `ReadRawRecord`.  `binary.Read` of the 8-byte header follows
`io.ReadFull`: `io.EOF` when no bytes are available, `io.ErrUnexpectedEOF`
when one to seven are.  The body is read with a single `file.Read` into a
buffer of `header.Len` bytes: with `os.File` semantics this yields
`io.EOF` only when the buffer is non-empty and no bytes are available,
and otherwise `min len avail` bytes with no error; the short-read check
`uint32(n) != header.Len` then turns a partial body into
`io.ErrUnexpectedEOF`.  Every error path seeks back to the entry offset. -/
def ReadRawRecord (f : FileStream) : Except ReadErr RawRecord × FileStream :=
  let offset := f.pos
  if f.avail = 0 then
    (Except.error ReadErr.eof, { f with pos := offset })
  else if f.avail < 8 then
    (Except.error ReadErr.unexpectedEof, { f with pos := offset })
  else
    let bodyAvail := f.avail - 8
    if 0 < f.hdrLen ∧ bodyAvail = 0 then
      (Except.error ReadErr.eof, { f with pos := offset })
    else if bodyAvail < f.hdrLen then
      (Except.error ReadErr.unexpectedEof, { f with pos := offset })
    else
      (Except.ok { «Type» := f.hdrType, Data := (f.content.drop (offset + 8)).take f.hdrLen },
        { f with pos := offset + 8 + f.hdrLen })

/-- Result record of `ReadRecord` (Go struct `RecordContainer`), the
`interface{}` slot made a tagged union. -/
inductive DecodedRecord where
  | event (e : EventRecord)
  | packet (p : PacketRecord)
  | extraData (x : ExtraDataRecord)
  deriving Repr, DecidableEq

/-- Container for a decoded record with its raw type tag. -/
structure RecordContainer where
  «Type» : Nat
  Record : DecodedRecord
  deriving Repr, DecidableEq

/-- Errors `ReadRecord` can return. -/
inductive ReadRecErr where
  | eof
  | unexpectedEof
  | decodingError
  deriving Repr, DecidableEq

/-- Lift a framing error into `ReadRecord`'s error type. -/
def ReadErr.lift : ReadErr → ReadRecErr
  | ReadErr.eof => ReadRecErr.eof
  | ReadErr.unexpectedEof => ReadRecErr.unexpectedEof

/-- `ReadRecord`: frame one raw record, then dispatch on the type tag.
The Go function returns `(nil, nil)` for an unrecognized tag — modelled
as `Except.ok none`. -/
def ReadRecord (f : FileStream) :
    Except ReadRecErr (Option RecordContainer) × FileStream :=
  match ReadRawRecord f with
  | (Except.error e, f') => (Except.error e.lift, f')
  | (Except.ok record, f') =>
    if IsEventType record.«Type» then
      match DecodeEventRecord record.«Type» record.Data with
      | none => (Except.error ReadRecErr.decodingError, f')
      | some ev =>
        (Except.ok (some { «Type» := record.«Type», Record := DecodedRecord.event ev }), f')
    else if record.«Type» = UNIFIED2_PACKET then
      match DecodePacketRecord record.Data with
      | none => (Except.error ReadRecErr.decodingError, f')
      | some p =>
        (Except.ok (some { «Type» := record.«Type», Record := DecodedRecord.packet p }), f')
    else if record.«Type» = UNIFIED2_EXTRA_DATA then
      match DecodeExtraDataRecord record.Data with
      | none => (Except.error ReadRecErr.decodingError, f')
      | some x =>
        (Except.ok (some { «Type» := record.«Type», Record := DecodedRecord.extraData x }), f')
    else
      (Except.ok none, f')

/-! ## Basic facts about the read primitives -/

theorem readN_of_le {n : Nat} {l : List Nat} (h : n ≤ l.length) :
    readN n l = some (l.take n, l.drop n) := by
  simp [readN, h]

theorem readN_eq_some {n : Nat} {l a r : List Nat} :
    readN n l = some (a, r) ↔ n ≤ l.length ∧ a = l.take n ∧ r = l.drop n := by
  unfold readN
  split
  · simp_all [eq_comm]
  · simp_all

theorem readU32_of_le {l : List Nat} (h : 4 ≤ l.length) :
    readU32 l = some (beVal (l.take 4), l.drop 4) := by
  simp [readU32, readN_of_le h]

theorem readU16_of_le {l : List Nat} (h : 2 ≤ l.length) :
    readU16 l = some (beVal (l.take 2), l.drop 2) := by
  simp [readU16, readN_of_le h]

theorem readU8_of_le {l : List Nat} (h : 1 ≤ l.length) :
    readU8 l = some (beVal (l.take 1), l.drop 1) := by
  simp [readU8, readN_of_le h]

theorem readU32_eq_some {l : List Nat} {v : Nat} {r : List Nat} :
    readU32 l = some (v, r) ↔ 4 ≤ l.length ∧ v = beVal (l.take 4) ∧ r = l.drop 4 := by
  rw [readU32, readN]
  split
  next h => simp [eq_comm, h]
  next h => simp [h]

theorem readU16_eq_some {l : List Nat} {v : Nat} {r : List Nat} :
    readU16 l = some (v, r) ↔ 2 ≤ l.length ∧ v = beVal (l.take 2) ∧ r = l.drop 2 := by
  rw [readU16, readN]
  split
  next h => simp [eq_comm, h]
  next h => simp [h]

theorem readU8_eq_some {l : List Nat} {v : Nat} {r : List Nat} :
    readU8 l = some (v, r) ↔ 1 ≤ l.length ∧ v = beVal (l.take 1) ∧ r = l.drop 1 := by
  rw [readU8, readN]
  split
  next h => simp [eq_comm, h]
  next h => simp [h]

/-- Eliminate one monadic bind over `Option` when the result is `some`. -/
theorem bind_elim {α β : Type} {x : Option α} {f : α → Option β} {b : β}
    (h : (x >>= f) = some b) : ∃ a, x = some a ∧ f a = some b := by
  rw [Option.bind_eq_bind, Option.bind_eq_some] at h
  exact h

/-! ## The four sections of the event decoder -/

theorem readEventPreamble_of_le {data : List Nat} (h : 36 ≤ data.length) :
    readEventPreamble data = some
      ((beVal (data.take 4), beVal ((data.drop 4).take 4), beVal ((data.drop 8).take 4),
        beVal ((data.drop 12).take 4), beVal ((data.drop 16).take 4),
        beVal ((data.drop 20).take 4), beVal ((data.drop 24).take 4),
        beVal ((data.drop 28).take 4), beVal ((data.drop 32).take 4)), data.drop 36) := by
  have e : ∀ k : Nat, k + 4 ≤ data.length →
      readU32 (data.drop k) = some (beVal ((data.drop k).take 4), data.drop (k + 4)) := by
    intro k hk
    rw [readU32_of_le (by simp; omega), List.drop_drop]
  have e0 := readU32_of_le (show (4:Nat) ≤ data.length by omega)
  have e4 := e 4 (by omega)
  have e8 := e 8 (by omega)
  have e12 := e 12 (by omega)
  have e16 := e 16 (by omega)
  have e20 := e 20 (by omega)
  have e24 := e 24 (by omega)
  have e28 := e 28 (by omega)
  have e32 := e 32 (by omega)
  simp only [readEventPreamble, e0, e4, e8, e12, e16, e20, e24, e28, e32,
    Option.bind_eq_bind, Option.some_bind, Option.pure_def]

theorem readEventPreamble_some {data : List Nat} {t} {r : List Nat}
    (h : readEventPreamble data = some (t, r)) :
    36 ≤ data.length ∧ r = data.drop 36 := by
  rw [readEventPreamble] at h
  obtain ⟨⟨v1, r1⟩, h1, h⟩ := bind_elim h
  rw [readU32_eq_some] at h1; obtain ⟨hl1, -, rfl⟩ := h1
  obtain ⟨⟨v2, r2⟩, h2, h⟩ := bind_elim h
  rw [readU32_eq_some] at h2; obtain ⟨hl2, -, rfl⟩ := h2
  obtain ⟨⟨v3, r3⟩, h3, h⟩ := bind_elim h
  rw [readU32_eq_some] at h3; obtain ⟨hl3, -, rfl⟩ := h3
  obtain ⟨⟨v4, r4⟩, h4, h⟩ := bind_elim h
  rw [readU32_eq_some] at h4; obtain ⟨hl4, -, rfl⟩ := h4
  obtain ⟨⟨v5, r5⟩, h5, h⟩ := bind_elim h
  rw [readU32_eq_some] at h5; obtain ⟨hl5, -, rfl⟩ := h5
  obtain ⟨⟨v6, r6⟩, h6, h⟩ := bind_elim h
  rw [readU32_eq_some] at h6; obtain ⟨hl6, -, rfl⟩ := h6
  obtain ⟨⟨v7, r7⟩, h7, h⟩ := bind_elim h
  rw [readU32_eq_some] at h7; obtain ⟨hl7, -, rfl⟩ := h7
  obtain ⟨⟨v8, r8⟩, h8, h⟩ := bind_elim h
  rw [readU32_eq_some] at h8; obtain ⟨hl8, -, rfl⟩ := h8
  obtain ⟨⟨v9, r9⟩, h9, h⟩ := bind_elim h
  rw [readU32_eq_some] at h9; obtain ⟨hl9, -, rfl⟩ := h9
  simp only [Option.pure_def, Option.some.injEq, Prod.mk.injEq] at h
  obtain ⟨-, rfl⟩ := h
  simp only [List.length_drop, List.drop_drop] at *
  exact ⟨by omega, by norm_num⟩

theorem readEventAddrs_v4_of_le {t : Nat}
    (ht : t = UNIFIED2_IDS_EVENT ∨ t = UNIFIED2_IDS_EVENT_V2)
    {l : List Nat} (h : 8 ≤ l.length) :
    readEventAddrs t l = some (l.take 4, (l.drop 4).take 4, l.drop 8) := by
  rw [readEventAddrs, if_pos ht]
  simp only [readN_of_le (show (4:Nat) ≤ l.length by omega),
    readN_of_le (show (4:Nat) ≤ (l.drop 4).length by simp; omega),
    Option.bind_eq_bind, Option.some_bind, Option.pure_def, List.drop_drop]

theorem readEventAddrs_v6_of_le {t : Nat}
    (ht : t = UNIFIED2_IDS_EVENT_IP6 ∨ t = UNIFIED2_IDS_EVENT_IP6_V2)
    {l : List Nat} (h : 32 ≤ l.length) :
    readEventAddrs t l = some (l.take 16, (l.drop 16).take 16, l.drop 32) := by
  rw [readEventAddrs, if_neg (by rcases ht with rfl | rfl <;> decide), if_pos ht]
  simp only [readN_of_le (show (16:Nat) ≤ l.length by omega),
    readN_of_le (show (16:Nat) ≤ (l.drop 16).length by simp; omega),
    Option.bind_eq_bind, Option.some_bind, Option.pure_def, List.drop_drop]

theorem readEventAddrs_other {t : Nat}
    (h7 : t ≠ UNIFIED2_IDS_EVENT) (h72 : t ≠ UNIFIED2_IDS_EVENT_IP6)
    (h104 : t ≠ UNIFIED2_IDS_EVENT_V2) (h105 : t ≠ UNIFIED2_IDS_EVENT_IP6_V2)
    (l : List Nat) :
    readEventAddrs t l = some ([], [], l) := by
  rw [readEventAddrs, if_neg (by simp [h7, h104]), if_neg (by simp [h72, h105])]
  rfl

theorem readEventAddrs_v4_some {t : Nat}
    (ht : t = UNIFIED2_IDS_EVENT ∨ t = UNIFIED2_IDS_EVENT_V2)
    {l src dst rest : List Nat}
    (h : readEventAddrs t l = some (src, dst, rest)) :
    8 ≤ l.length ∧ rest = l.drop 8 := by
  rw [readEventAddrs, if_pos ht] at h
  obtain ⟨⟨a1, r1⟩, h1, h⟩ := bind_elim h
  rw [readN_eq_some] at h1; obtain ⟨hl1, -, rfl⟩ := h1
  obtain ⟨⟨a2, r2⟩, h2, h⟩ := bind_elim h
  rw [readN_eq_some] at h2; obtain ⟨hl2, -, rfl⟩ := h2
  simp only [Option.pure_def, Option.some.injEq, Prod.mk.injEq] at h
  obtain ⟨-, -, rfl⟩ := h
  simp only [List.length_drop, List.drop_drop] at *
  exact ⟨by omega, by norm_num⟩

theorem readEventAddrs_v6_some {t : Nat}
    (ht : t = UNIFIED2_IDS_EVENT_IP6 ∨ t = UNIFIED2_IDS_EVENT_IP6_V2)
    {l src dst rest : List Nat}
    (h : readEventAddrs t l = some (src, dst, rest)) :
    32 ≤ l.length ∧ rest = l.drop 32 := by
  rw [readEventAddrs, if_neg (by rcases ht with rfl | rfl <;> decide), if_pos ht] at h
  obtain ⟨⟨a1, r1⟩, h1, h⟩ := bind_elim h
  rw [readN_eq_some] at h1; obtain ⟨hl1, -, rfl⟩ := h1
  obtain ⟨⟨a2, r2⟩, h2, h⟩ := bind_elim h
  rw [readN_eq_some] at h2; obtain ⟨hl2, -, rfl⟩ := h2
  simp only [Option.pure_def, Option.some.injEq, Prod.mk.injEq] at h
  obtain ⟨-, -, rfl⟩ := h
  simp only [List.length_drop, List.drop_drop] at *
  exact ⟨by omega, by norm_num⟩

theorem readEventMid_of_le {l : List Nat} (h : 8 ≤ l.length) :
    readEventMid l = some
      ((beVal (l.take 2), beVal ((l.drop 2).take 2), beVal ((l.drop 4).take 1),
        beVal ((l.drop 5).take 1), beVal ((l.drop 6).take 1),
        beVal ((l.drop 7).take 1)), l.drop 8) := by
  have e0 := readU16_of_le (show (2:Nat) ≤ l.length by omega)
  have e2 : readU16 (l.drop 2) = some (beVal ((l.drop 2).take 2), l.drop 4) := by
    rw [readU16_of_le (by simp; omega), List.drop_drop]
  have e4 : readU8 (l.drop 4) = some (beVal ((l.drop 4).take 1), l.drop 5) := by
    rw [readU8_of_le (by simp; omega), List.drop_drop]
  have e5 : readU8 (l.drop 5) = some (beVal ((l.drop 5).take 1), l.drop 6) := by
    rw [readU8_of_le (by simp; omega), List.drop_drop]
  have e6 : readU8 (l.drop 6) = some (beVal ((l.drop 6).take 1), l.drop 7) := by
    rw [readU8_of_le (by simp; omega), List.drop_drop]
  have e7 : readU8 (l.drop 7) = some (beVal ((l.drop 7).take 1), l.drop 8) := by
    rw [readU8_of_le (by simp; omega), List.drop_drop]
  simp only [readEventMid, e0, e2, e4, e5, e6, e7,
    Option.bind_eq_bind, Option.some_bind, Option.pure_def]

theorem readEventMid_some {l : List Nat} {t} {rest : List Nat}
    (h : readEventMid l = some (t, rest)) :
    8 ≤ l.length ∧ rest = l.drop 8 := by
  rw [readEventMid] at h
  obtain ⟨⟨v1, r1⟩, h1, h⟩ := bind_elim h
  rw [readU16_eq_some] at h1; obtain ⟨hl1, -, rfl⟩ := h1
  obtain ⟨⟨v2, r2⟩, h2, h⟩ := bind_elim h
  rw [readU16_eq_some] at h2; obtain ⟨hl2, -, rfl⟩ := h2
  obtain ⟨⟨v3, r3⟩, h3, h⟩ := bind_elim h
  rw [readU8_eq_some] at h3; obtain ⟨hl3, -, rfl⟩ := h3
  obtain ⟨⟨v4, r4⟩, h4, h⟩ := bind_elim h
  rw [readU8_eq_some] at h4; obtain ⟨hl4, -, rfl⟩ := h4
  obtain ⟨⟨v5, r5⟩, h5, h⟩ := bind_elim h
  rw [readU8_eq_some] at h5; obtain ⟨hl5, -, rfl⟩ := h5
  obtain ⟨⟨v6, r6⟩, h6, h⟩ := bind_elim h
  rw [readU8_eq_some] at h6; obtain ⟨hl6, -, rfl⟩ := h6
  simp only [Option.pure_def, Option.some.injEq, Prod.mk.injEq] at h
  obtain ⟨-, rfl⟩ := h
  simp only [List.length_drop, List.drop_drop] at *
  exact ⟨by omega, by norm_num⟩

theorem readEventV2Tail_v2_of_le {t : Nat}
    (ht : t = UNIFIED2_IDS_EVENT_V2 ∨ t = UNIFIED2_IDS_EVENT_IP6_V2)
    {l : List Nat} (h : 6 ≤ l.length) :
    readEventV2Tail t l = some (beVal (l.take 4), beVal ((l.drop 4).take 2), l.drop 6) := by
  rw [readEventV2Tail, if_pos ht]
  have e4 : readU16 (l.drop 4) = some (beVal ((l.drop 4).take 2), l.drop 6) := by
    rw [readU16_of_le (by simp; omega), List.drop_drop]
  simp only [readU32_of_le (show (4:Nat) ≤ l.length by omega), e4,
    Option.bind_eq_bind, Option.some_bind, Option.pure_def]

theorem readEventV2Tail_v1 {t : Nat}
    (h104 : t ≠ UNIFIED2_IDS_EVENT_V2) (h105 : t ≠ UNIFIED2_IDS_EVENT_IP6_V2)
    (l : List Nat) :
    readEventV2Tail t l = some (0, 0, l) := by
  rw [readEventV2Tail, if_neg (by simp [h104, h105])]
  rfl

theorem readEventV2Tail_v2_some {t : Nat}
    (ht : t = UNIFIED2_IDS_EVENT_V2 ∨ t = UNIFIED2_IDS_EVENT_IP6_V2)
    {l : List Nat} {m v} {rest : List Nat}
    (h : readEventV2Tail t l = some (m, v, rest)) :
    6 ≤ l.length ∧ rest = l.drop 6 := by
  rw [readEventV2Tail, if_pos ht] at h
  obtain ⟨⟨v1, r1⟩, h1, h⟩ := bind_elim h
  rw [readU32_eq_some] at h1; obtain ⟨hl1, -, rfl⟩ := h1
  obtain ⟨⟨v2, r2⟩, h2, h⟩ := bind_elim h
  rw [readU16_eq_some] at h2; obtain ⟨hl2, -, rfl⟩ := h2
  simp only [Option.pure_def, Option.some.injEq, Prod.mk.injEq] at h
  obtain ⟨-, -, rfl⟩ := h
  simp only [List.length_drop, List.drop_drop] at *
  exact ⟨by omega, by norm_num⟩

/-! ## Per-tag characterization of the event decoder -/

theorem decodeEventAux_7 {data : List Nat} (h : 52 ≤ data.length) :
    DecodeEventRecordAux UNIFIED2_IDS_EVENT data = some
      ({ SensorId := beVal (data.take 4), EventId := beVal ((data.drop 4).take 4),
         EventSecond := beVal ((data.drop 8).take 4),
         EventMicrosecond := beVal ((data.drop 12).take 4),
         SignatureId := beVal ((data.drop 16).take 4),
         GeneratorId := beVal ((data.drop 20).take 4),
         SignatureRevision := beVal ((data.drop 24).take 4),
         ClassificationId := beVal ((data.drop 28).take 4),
         Priority := beVal ((data.drop 32).take 4),
         IpSource := (data.drop 36).take 4,
         IpDestination := (data.drop 40).take 4,
         SportItype := beVal ((data.drop 44).take 2),
         DportIcode := beVal ((data.drop 46).take 2),
         Protocol := beVal ((data.drop 48).take 1),
         ImpactFlag := beVal ((data.drop 49).take 1),
         Impact := beVal ((data.drop 50).take 1),
         Blocked := beVal ((data.drop 51).take 1),
         MplsLabel := 0, VlanId := 0 }, data.drop 52) := by
  have hpre := readEventPreamble_of_le (show 36 ≤ data.length by omega)
  have haddr : readEventAddrs UNIFIED2_IDS_EVENT (data.drop 36) =
      some ((data.drop 36).take 4, (data.drop 40).take 4, data.drop 44) := by
    rw [readEventAddrs_v4_of_le (Or.inl rfl) (by simp; omega)]
    simp
  have hmid : readEventMid (data.drop 44) = some
      ((beVal ((data.drop 44).take 2), beVal ((data.drop 46).take 2),
        beVal ((data.drop 48).take 1), beVal ((data.drop 49).take 1),
        beVal ((data.drop 50).take 1), beVal ((data.drop 51).take 1)),
        data.drop 52) := by
    rw [readEventMid_of_le (by simp; omega)]
    simp
  have htail := readEventV2Tail_v1 (t := UNIFIED2_IDS_EVENT)
    (by decide) (by decide) (data.drop 52)
  simp only [DecodeEventRecordAux, hpre, haddr, hmid, htail,
    Option.bind_eq_bind, Option.some_bind, Option.pure_def]

theorem decodeEventAux_104 {data : List Nat} (h : 58 ≤ data.length) :
    DecodeEventRecordAux UNIFIED2_IDS_EVENT_V2 data = some
      ({ SensorId := beVal (data.take 4), EventId := beVal ((data.drop 4).take 4),
         EventSecond := beVal ((data.drop 8).take 4),
         EventMicrosecond := beVal ((data.drop 12).take 4),
         SignatureId := beVal ((data.drop 16).take 4),
         GeneratorId := beVal ((data.drop 20).take 4),
         SignatureRevision := beVal ((data.drop 24).take 4),
         ClassificationId := beVal ((data.drop 28).take 4),
         Priority := beVal ((data.drop 32).take 4),
         IpSource := (data.drop 36).take 4,
         IpDestination := (data.drop 40).take 4,
         SportItype := beVal ((data.drop 44).take 2),
         DportIcode := beVal ((data.drop 46).take 2),
         Protocol := beVal ((data.drop 48).take 1),
         ImpactFlag := beVal ((data.drop 49).take 1),
         Impact := beVal ((data.drop 50).take 1),
         Blocked := beVal ((data.drop 51).take 1),
         MplsLabel := beVal ((data.drop 52).take 4),
         VlanId := beVal ((data.drop 56).take 2) }, data.drop 58) := by
  have hpre := readEventPreamble_of_le (show 36 ≤ data.length by omega)
  have haddr : readEventAddrs UNIFIED2_IDS_EVENT_V2 (data.drop 36) =
      some ((data.drop 36).take 4, (data.drop 40).take 4, data.drop 44) := by
    rw [readEventAddrs_v4_of_le (Or.inr rfl) (by simp; omega)]
    simp
  have hmid : readEventMid (data.drop 44) = some
      ((beVal ((data.drop 44).take 2), beVal ((data.drop 46).take 2),
        beVal ((data.drop 48).take 1), beVal ((data.drop 49).take 1),
        beVal ((data.drop 50).take 1), beVal ((data.drop 51).take 1)),
        data.drop 52) := by
    rw [readEventMid_of_le (by simp; omega)]
    simp
  have htail : readEventV2Tail UNIFIED2_IDS_EVENT_V2 (data.drop 52) =
      some (beVal ((data.drop 52).take 4), beVal ((data.drop 56).take 2), data.drop 58) := by
    rw [readEventV2Tail_v2_of_le (Or.inl rfl) (by simp; omega)]
    simp
  simp only [DecodeEventRecordAux, hpre, haddr, hmid, htail,
    Option.bind_eq_bind, Option.some_bind, Option.pure_def]

theorem decodeEventAux_72 {data : List Nat} (h : 76 ≤ data.length) :
    DecodeEventRecordAux UNIFIED2_IDS_EVENT_IP6 data = some
      ({ SensorId := beVal (data.take 4), EventId := beVal ((data.drop 4).take 4),
         EventSecond := beVal ((data.drop 8).take 4),
         EventMicrosecond := beVal ((data.drop 12).take 4),
         SignatureId := beVal ((data.drop 16).take 4),
         GeneratorId := beVal ((data.drop 20).take 4),
         SignatureRevision := beVal ((data.drop 24).take 4),
         ClassificationId := beVal ((data.drop 28).take 4),
         Priority := beVal ((data.drop 32).take 4),
         IpSource := (data.drop 36).take 16,
         IpDestination := (data.drop 52).take 16,
         SportItype := beVal ((data.drop 68).take 2),
         DportIcode := beVal ((data.drop 70).take 2),
         Protocol := beVal ((data.drop 72).take 1),
         ImpactFlag := beVal ((data.drop 73).take 1),
         Impact := beVal ((data.drop 74).take 1),
         Blocked := beVal ((data.drop 75).take 1),
         MplsLabel := 0, VlanId := 0 }, data.drop 76) := by
  have hpre := readEventPreamble_of_le (show 36 ≤ data.length by omega)
  have haddr : readEventAddrs UNIFIED2_IDS_EVENT_IP6 (data.drop 36) =
      some ((data.drop 36).take 16, (data.drop 52).take 16, data.drop 68) := by
    rw [readEventAddrs_v6_of_le (Or.inl rfl) (by simp; omega)]
    simp
  have hmid : readEventMid (data.drop 68) = some
      ((beVal ((data.drop 68).take 2), beVal ((data.drop 70).take 2),
        beVal ((data.drop 72).take 1), beVal ((data.drop 73).take 1),
        beVal ((data.drop 74).take 1), beVal ((data.drop 75).take 1)),
        data.drop 76) := by
    rw [readEventMid_of_le (by simp; omega)]
    simp
  have htail := readEventV2Tail_v1 (t := UNIFIED2_IDS_EVENT_IP6)
    (by decide) (by decide) (data.drop 76)
  simp only [DecodeEventRecordAux, hpre, haddr, hmid, htail,
    Option.bind_eq_bind, Option.some_bind, Option.pure_def]

theorem decodeEventAux_105 {data : List Nat} (h : 82 ≤ data.length) :
    DecodeEventRecordAux UNIFIED2_IDS_EVENT_IP6_V2 data = some
      ({ SensorId := beVal (data.take 4), EventId := beVal ((data.drop 4).take 4),
         EventSecond := beVal ((data.drop 8).take 4),
         EventMicrosecond := beVal ((data.drop 12).take 4),
         SignatureId := beVal ((data.drop 16).take 4),
         GeneratorId := beVal ((data.drop 20).take 4),
         SignatureRevision := beVal ((data.drop 24).take 4),
         ClassificationId := beVal ((data.drop 28).take 4),
         Priority := beVal ((data.drop 32).take 4),
         IpSource := (data.drop 36).take 16,
         IpDestination := (data.drop 52).take 16,
         SportItype := beVal ((data.drop 68).take 2),
         DportIcode := beVal ((data.drop 70).take 2),
         Protocol := beVal ((data.drop 72).take 1),
         ImpactFlag := beVal ((data.drop 73).take 1),
         Impact := beVal ((data.drop 74).take 1),
         Blocked := beVal ((data.drop 75).take 1),
         MplsLabel := beVal ((data.drop 76).take 4),
         VlanId := beVal ((data.drop 80).take 2) }, data.drop 82) := by
  have hpre := readEventPreamble_of_le (show 36 ≤ data.length by omega)
  have haddr : readEventAddrs UNIFIED2_IDS_EVENT_IP6_V2 (data.drop 36) =
      some ((data.drop 36).take 16, (data.drop 52).take 16, data.drop 68) := by
    rw [readEventAddrs_v6_of_le (Or.inr rfl) (by simp; omega)]
    simp
  have hmid : readEventMid (data.drop 68) = some
      ((beVal ((data.drop 68).take 2), beVal ((data.drop 70).take 2),
        beVal ((data.drop 72).take 1), beVal ((data.drop 73).take 1),
        beVal ((data.drop 74).take 1), beVal ((data.drop 75).take 1)),
        data.drop 76) := by
    rw [readEventMid_of_le (by simp; omega)]
    simp
  have htail : readEventV2Tail UNIFIED2_IDS_EVENT_IP6_V2 (data.drop 76) =
      some (beVal ((data.drop 76).take 4), beVal ((data.drop 80).take 2), data.drop 82) := by
    rw [readEventV2Tail_v2_of_le (Or.inr rfl) (by simp; omega)]
    simp
  simp only [DecodeEventRecordAux, hpre, haddr, hmid, htail,
    Option.bind_eq_bind, Option.some_bind, Option.pure_def]

theorem decodeEventAux_other {t : Nat}
    (h7 : t ≠ UNIFIED2_IDS_EVENT) (h72 : t ≠ UNIFIED2_IDS_EVENT_IP6)
    (h104 : t ≠ UNIFIED2_IDS_EVENT_V2) (h105 : t ≠ UNIFIED2_IDS_EVENT_IP6_V2)
    {data : List Nat} (h : 44 ≤ data.length) :
    DecodeEventRecordAux t data = some
      ({ SensorId := beVal (data.take 4), EventId := beVal ((data.drop 4).take 4),
         EventSecond := beVal ((data.drop 8).take 4),
         EventMicrosecond := beVal ((data.drop 12).take 4),
         SignatureId := beVal ((data.drop 16).take 4),
         GeneratorId := beVal ((data.drop 20).take 4),
         SignatureRevision := beVal ((data.drop 24).take 4),
         ClassificationId := beVal ((data.drop 28).take 4),
         Priority := beVal ((data.drop 32).take 4),
         IpSource := [], IpDestination := [],
         SportItype := beVal ((data.drop 36).take 2),
         DportIcode := beVal ((data.drop 38).take 2),
         Protocol := beVal ((data.drop 40).take 1),
         ImpactFlag := beVal ((data.drop 41).take 1),
         Impact := beVal ((data.drop 42).take 1),
         Blocked := beVal ((data.drop 43).take 1),
         MplsLabel := 0, VlanId := 0 }, data.drop 44) := by
  have hpre := readEventPreamble_of_le (show 36 ≤ data.length by omega)
  have haddr := readEventAddrs_other h7 h72 h104 h105 (data.drop 36)
  have hmid : readEventMid (data.drop 36) = some
      ((beVal ((data.drop 36).take 2), beVal ((data.drop 38).take 2),
        beVal ((data.drop 40).take 1), beVal ((data.drop 41).take 1),
        beVal ((data.drop 42).take 1), beVal ((data.drop 43).take 1)),
        data.drop 44) := by
    rw [readEventMid_of_le (by simp; omega)]
    simp
  have htail := readEventV2Tail_v1 h104 h105 (data.drop 44)
  simp only [DecodeEventRecordAux, hpre, haddr, hmid, htail,
    Option.bind_eq_bind, Option.some_bind, Option.pure_def]

/-! ## Minimum body lengths: a successful event decode needs the full
fixed-size fields of its tag -/

theorem decodeEventAux_7_some {data : List Nat} {p}
    (h : DecodeEventRecordAux UNIFIED2_IDS_EVENT data = some p) :
    52 ≤ data.length := by
  rw [DecodeEventRecordAux] at h
  obtain ⟨⟨⟨a1, a2, a3, a4, a5, a6, a7, a8, a9⟩, r1⟩, h1, h⟩ := bind_elim h
  obtain ⟨h36, rfl⟩ := readEventPreamble_some h1
  obtain ⟨⟨src, dst, r2⟩, h2, h⟩ := bind_elim h
  obtain ⟨ha, rfl⟩ := readEventAddrs_v4_some (Or.inl rfl) h2
  obtain ⟨⟨⟨b1, b2, b3, b4, b5, b6⟩, r3⟩, h3, h⟩ := bind_elim h
  obtain ⟨hm, rfl⟩ := readEventMid_some h3
  simp only [List.length_drop, List.drop_drop] at *
  omega

theorem decodeEventAux_104_some {data : List Nat} {p}
    (h : DecodeEventRecordAux UNIFIED2_IDS_EVENT_V2 data = some p) :
    58 ≤ data.length := by
  rw [DecodeEventRecordAux] at h
  obtain ⟨⟨⟨a1, a2, a3, a4, a5, a6, a7, a8, a9⟩, r1⟩, h1, h⟩ := bind_elim h
  obtain ⟨h36, rfl⟩ := readEventPreamble_some h1
  obtain ⟨⟨src, dst, r2⟩, h2, h⟩ := bind_elim h
  obtain ⟨ha, rfl⟩ := readEventAddrs_v4_some (Or.inr rfl) h2
  obtain ⟨⟨⟨b1, b2, b3, b4, b5, b6⟩, r3⟩, h3, h⟩ := bind_elim h
  obtain ⟨hm, rfl⟩ := readEventMid_some h3
  obtain ⟨⟨m, v, r4⟩, h4, h⟩ := bind_elim h
  obtain ⟨hv, rfl⟩ := readEventV2Tail_v2_some (Or.inl rfl) h4
  simp only [List.length_drop, List.drop_drop] at *
  omega

theorem decodeEventAux_72_some {data : List Nat} {p}
    (h : DecodeEventRecordAux UNIFIED2_IDS_EVENT_IP6 data = some p) :
    76 ≤ data.length := by
  rw [DecodeEventRecordAux] at h
  obtain ⟨⟨⟨a1, a2, a3, a4, a5, a6, a7, a8, a9⟩, r1⟩, h1, h⟩ := bind_elim h
  obtain ⟨h36, rfl⟩ := readEventPreamble_some h1
  obtain ⟨⟨src, dst, r2⟩, h2, h⟩ := bind_elim h
  obtain ⟨ha, rfl⟩ := readEventAddrs_v6_some (Or.inl rfl) h2
  obtain ⟨⟨⟨b1, b2, b3, b4, b5, b6⟩, r3⟩, h3, h⟩ := bind_elim h
  obtain ⟨hm, rfl⟩ := readEventMid_some h3
  simp only [List.length_drop, List.drop_drop] at *
  omega

theorem decodeEventAux_105_some {data : List Nat} {p}
    (h : DecodeEventRecordAux UNIFIED2_IDS_EVENT_IP6_V2 data = some p) :
    82 ≤ data.length := by
  rw [DecodeEventRecordAux] at h
  obtain ⟨⟨⟨a1, a2, a3, a4, a5, a6, a7, a8, a9⟩, r1⟩, h1, h⟩ := bind_elim h
  obtain ⟨h36, rfl⟩ := readEventPreamble_some h1
  obtain ⟨⟨src, dst, r2⟩, h2, h⟩ := bind_elim h
  obtain ⟨ha, rfl⟩ := readEventAddrs_v6_some (Or.inr rfl) h2
  obtain ⟨⟨⟨b1, b2, b3, b4, b5, b6⟩, r3⟩, h3, h⟩ := bind_elim h
  obtain ⟨hm, rfl⟩ := readEventMid_some h3
  obtain ⟨⟨m, v, r4⟩, h4, h⟩ := bind_elim h
  obtain ⟨hv, rfl⟩ := readEventV2Tail_v2_some (Or.inr rfl) h4
  simp only [List.length_drop, List.drop_drop] at *
  omega

/-- Required body length of the event decoder, per event type tag. -/
def eventMinLen (t : Nat) : Nat :=
  if t = UNIFIED2_IDS_EVENT then 52
  else if t = UNIFIED2_IDS_EVENT_IP6 then 76
  else if t = UNIFIED2_IDS_EVENT_V2 then 58
  else if t = UNIFIED2_IDS_EVENT_IP6_V2 then 82
  else 44

theorem decodeEvent_none_of_short {t : Nat} (ht : IsEventType t = true)
    {data : List Nat} (h : data.length < eventMinLen t) :
    DecodeEventRecord t data = none := by
  have ht' : t = UNIFIED2_IDS_EVENT ∨ t = UNIFIED2_IDS_EVENT_IP6 ∨
      t = UNIFIED2_IDS_EVENT_V2 ∨ t = UNIFIED2_IDS_EVENT_IP6_V2 := by
    simpa [IsEventType] using ht
  rw [DecodeEventRecord]
  rcases ht' with rfl | rfl | rfl | rfl
  · cases hh : DecodeEventRecordAux UNIFIED2_IDS_EVENT data with
    | none => rfl
    | some p =>
      exact absurd (decodeEventAux_7_some hh) (by simp [eventMinLen, UNIFIED2_IDS_EVENT, UNIFIED2_IDS_EVENT_IP6,
        UNIFIED2_IDS_EVENT_V2, UNIFIED2_IDS_EVENT_IP6_V2] at h; omega)
  · cases hh : DecodeEventRecordAux UNIFIED2_IDS_EVENT_IP6 data with
    | none => rfl
    | some p =>
      exact absurd (decodeEventAux_72_some hh) (by simp [eventMinLen, UNIFIED2_IDS_EVENT, UNIFIED2_IDS_EVENT_IP6,
        UNIFIED2_IDS_EVENT_V2, UNIFIED2_IDS_EVENT_IP6_V2] at h; omega)
  · cases hh : DecodeEventRecordAux UNIFIED2_IDS_EVENT_V2 data with
    | none => rfl
    | some p =>
      exact absurd (decodeEventAux_104_some hh) (by simp [eventMinLen, UNIFIED2_IDS_EVENT, UNIFIED2_IDS_EVENT_IP6,
        UNIFIED2_IDS_EVENT_V2, UNIFIED2_IDS_EVENT_IP6_V2] at h; omega)
  · cases hh : DecodeEventRecordAux UNIFIED2_IDS_EVENT_IP6_V2 data with
    | none => rfl
    | some p =>
      exact absurd (decodeEventAux_105_some hh) (by simp [eventMinLen, UNIFIED2_IDS_EVENT, UNIFIED2_IDS_EVENT_IP6,
        UNIFIED2_IDS_EVENT_V2, UNIFIED2_IDS_EVENT_IP6_V2] at h; omega)

/-! ## The packet decoder -/

theorem decodePacket_of_le {data : List Nat} (h : 28 ≤ data.length) :
    DecodePacketRecord data = some
      { SensorId := beVal (data.take 4), EventId := beVal ((data.drop 4).take 4),
        EventSecond := beVal ((data.drop 8).take 4),
        PacketSecond := beVal ((data.drop 12).take 4),
        PacketMicrosecond := beVal ((data.drop 16).take 4),
        LinkType := beVal ((data.drop 20).take 4),
        Length := beVal ((data.drop 24).take 4),
        Data := data.drop 28 } := by
  have e : ∀ k : Nat, k + 4 ≤ data.length →
      readU32 (data.drop k) = some (beVal ((data.drop k).take 4), data.drop (k + 4)) := by
    intro k hk
    rw [readU32_of_le (by simp; omega), List.drop_drop]
  have e0 := readU32_of_le (show (4:Nat) ≤ data.length by omega)
  have e4 := e 4 (by omega)
  have e8 := e 8 (by omega)
  have e12 := e 12 (by omega)
  have e16 := e 16 (by omega)
  have e20 := e 20 (by omega)
  have e24 := e 24 (by omega)
  simp only [DecodePacketRecord, PACKET_RECORD_HDR_LEN, e0, e4, e8, e12, e16, e20, e24,
    Option.bind_eq_bind, Option.some_bind, Option.pure_def]

theorem decodePacket_some {data : List Nat} {p}
    (h : DecodePacketRecord data = some p) : 28 ≤ data.length := by
  rw [DecodePacketRecord] at h
  obtain ⟨⟨v1, r1⟩, h1, h⟩ := bind_elim h
  rw [readU32_eq_some] at h1; obtain ⟨hl1, -, rfl⟩ := h1
  obtain ⟨⟨v2, r2⟩, h2, h⟩ := bind_elim h
  rw [readU32_eq_some] at h2; obtain ⟨hl2, -, rfl⟩ := h2
  obtain ⟨⟨v3, r3⟩, h3, h⟩ := bind_elim h
  rw [readU32_eq_some] at h3; obtain ⟨hl3, -, rfl⟩ := h3
  obtain ⟨⟨v4, r4⟩, h4, h⟩ := bind_elim h
  rw [readU32_eq_some] at h4; obtain ⟨hl4, -, rfl⟩ := h4
  obtain ⟨⟨v5, r5⟩, h5, h⟩ := bind_elim h
  rw [readU32_eq_some] at h5; obtain ⟨hl5, -, rfl⟩ := h5
  obtain ⟨⟨v6, r6⟩, h6, h⟩ := bind_elim h
  rw [readU32_eq_some] at h6; obtain ⟨hl6, -, rfl⟩ := h6
  obtain ⟨⟨v7, r7⟩, h7, h⟩ := bind_elim h
  rw [readU32_eq_some] at h7; obtain ⟨hl7, -, rfl⟩ := h7
  simp only [List.length_drop, List.drop_drop] at *
  omega

theorem decodePacket_none_of_short {data : List Nat} (h : data.length < 28) :
    DecodePacketRecord data = none := by
  cases hh : DecodePacketRecord data with
  | none => rfl
  | some p => exact absurd (decodePacket_some hh) (by omega)

/-! ## The extra-data decoder -/

theorem decodeExtraData_of_le {data : List Nat} (h : 32 ≤ data.length) :
    DecodeExtraDataRecord data = some
      { EventType := beVal (data.take 4), EventLength := beVal ((data.drop 4).take 4),
        SensorId := beVal ((data.drop 8).take 4),
        EventId := beVal ((data.drop 12).take 4),
        EventSecond := beVal ((data.drop 16).take 4),
        «Type» := beVal ((data.drop 20).take 4),
        DataType := beVal ((data.drop 24).take 4),
        DataLength := beVal ((data.drop 28).take 4),
        Data := data.drop 32 } := by
  have e : ∀ k : Nat, k + 4 ≤ data.length →
      readU32 (data.drop k) = some (beVal ((data.drop k).take 4), data.drop (k + 4)) := by
    intro k hk
    rw [readU32_of_le (by simp; omega), List.drop_drop]
  have e0 := readU32_of_le (show (4:Nat) ≤ data.length by omega)
  have e4 := e 4 (by omega)
  have e8 := e 8 (by omega)
  have e12 := e 12 (by omega)
  have e16 := e 16 (by omega)
  have e20 := e 20 (by omega)
  have e24 := e 24 (by omega)
  have e28 := e 28 (by omega)
  simp only [DecodeExtraDataRecord, EXTRA_DATA_RECORD_HDR_LEN, e0, e4, e8, e12, e16,
    e20, e24, e28, Option.bind_eq_bind, Option.some_bind, Option.pure_def]

theorem decodeExtraData_some {data : List Nat} {p}
    (h : DecodeExtraDataRecord data = some p) : 32 ≤ data.length := by
  rw [DecodeExtraDataRecord] at h
  obtain ⟨⟨v1, r1⟩, h1, h⟩ := bind_elim h
  rw [readU32_eq_some] at h1; obtain ⟨hl1, -, rfl⟩ := h1
  obtain ⟨⟨v2, r2⟩, h2, h⟩ := bind_elim h
  rw [readU32_eq_some] at h2; obtain ⟨hl2, -, rfl⟩ := h2
  obtain ⟨⟨v3, r3⟩, h3, h⟩ := bind_elim h
  rw [readU32_eq_some] at h3; obtain ⟨hl3, -, rfl⟩ := h3
  obtain ⟨⟨v4, r4⟩, h4, h⟩ := bind_elim h
  rw [readU32_eq_some] at h4; obtain ⟨hl4, -, rfl⟩ := h4
  obtain ⟨⟨v5, r5⟩, h5, h⟩ := bind_elim h
  rw [readU32_eq_some] at h5; obtain ⟨hl5, -, rfl⟩ := h5
  obtain ⟨⟨v6, r6⟩, h6, h⟩ := bind_elim h
  rw [readU32_eq_some] at h6; obtain ⟨hl6, -, rfl⟩ := h6
  obtain ⟨⟨v7, r7⟩, h7, h⟩ := bind_elim h
  rw [readU32_eq_some] at h7; obtain ⟨hl7, -, rfl⟩ := h7
  obtain ⟨⟨v8, r8⟩, h8, h⟩ := bind_elim h
  rw [readU32_eq_some] at h8; obtain ⟨hl8, -, rfl⟩ := h8
  simp only [List.length_drop, List.drop_drop] at *
  omega

theorem decodeExtraData_none_of_short {data : List Nat} (h : data.length < 32) :
    DecodeExtraDataRecord data = none := by
  cases hh : DecodeExtraDataRecord data with
  | none => rfl
  | some p => exact absurd (decodeExtraData_some hh) (by omega)

/-! ## The framer -/

theorem readRawRecord_eof {f : FileStream} (h : f.avail = 0) :
    ReadRawRecord f = (Except.error ReadErr.eof, f) := by
  rw [ReadRawRecord]
  simp [h]

theorem readRawRecord_partial_header {f : FileStream}
    (h0 : f.avail ≠ 0) (h8 : f.avail < 8) :
    ReadRawRecord f = (Except.error ReadErr.unexpectedEof, f) := by
  rw [ReadRawRecord]
  simp [h0, h8]

theorem readRawRecord_body_eof {f : FileStream}
    (h8 : f.avail = 8) (hlen : 0 < f.hdrLen) :
    ReadRawRecord f = (Except.error ReadErr.eof, f) := by
  rw [ReadRawRecord]
  simp [h8, hlen]

theorem readRawRecord_partial_body {f : FileStream}
    (h8 : 8 < f.avail) (hb : f.avail - 8 < f.hdrLen) :
    ReadRawRecord f = (Except.error ReadErr.unexpectedEof, f) := by
  rw [ReadRawRecord]
  have h0 : ¬ f.avail = 0 := by omega
  have h8' : ¬ f.avail < 8 := by omega
  have hz : ¬ (0 < f.hdrLen ∧ f.avail - 8 = 0) := by omega
  simp [h0, h8', hz, hb]

theorem readRawRecord_ok {f : FileStream}
    (h8 : 8 ≤ f.avail) (hb : f.hdrLen ≤ f.avail - 8) :
    ReadRawRecord f =
      (Except.ok { «Type» := f.hdrType,
                   Data := (f.content.drop (f.pos + 8)).take f.hdrLen },
        { f with pos := f.pos + 8 + f.hdrLen }) := by
  rw [ReadRawRecord]
  have h0 : ¬ f.avail = 0 := by omega
  have h8' : ¬ f.avail < 8 := by omega
  have hz : ¬ (0 < f.hdrLen ∧ f.avail - 8 = 0) := by
    rintro ⟨hpos, hzero⟩
    omega
  have hb' : ¬ f.avail - 8 < f.hdrLen := by omega
  simp [h0, h8', hz, hb']

/-- Every call to `ReadRawRecord` either fails with the stream exactly as
on entry, or succeeds with the full record of the header at the entry
position and the stream advanced exactly past it. -/
theorem readRawRecord_cases (f : FileStream) :
    ((∃ e, (ReadRawRecord f).1 = Except.error e) ∧ (ReadRawRecord f).2 = f) ∨
    ((ReadRawRecord f).1 = Except.ok
        { «Type» := f.hdrType, Data := (f.content.drop (f.pos + 8)).take f.hdrLen } ∧
      8 + f.hdrLen ≤ f.avail ∧
      (ReadRawRecord f).2 = { f with pos := f.pos + 8 + f.hdrLen }) := by
  by_cases h0 : f.avail = 0
  · rw [readRawRecord_eof h0]
    exact Or.inl ⟨⟨ReadErr.eof, rfl⟩, rfl⟩
  · by_cases h8 : f.avail < 8
    · rw [readRawRecord_partial_header h0 h8]
      exact Or.inl ⟨⟨ReadErr.unexpectedEof, rfl⟩, rfl⟩
    · by_cases hb : f.hdrLen ≤ f.avail - 8
      · rw [readRawRecord_ok (by omega) hb]
        exact Or.inr ⟨rfl, by omega, rfl⟩
      · by_cases hz : f.avail = 8
        · rw [readRawRecord_body_eof hz (by omega)]
          exact Or.inl ⟨⟨ReadErr.eof, rfl⟩, rfl⟩
        · rw [readRawRecord_partial_body (by omega) (by omega)]
          exact Or.inl ⟨⟨ReadErr.unexpectedEof, rfl⟩, rfl⟩

/-- `ReadRecord` touches the stream only through `ReadRawRecord`. -/
theorem readRecord_stream (f : FileStream) :
    (ReadRecord f).2 = (ReadRawRecord f).2 := by
  rw [ReadRecord]
  rcases ReadRawRecord f with ⟨e | record, f'⟩
  · rfl
  · dsimp only
    split
    · split <;> rfl
    · split
      · split <;> rfl
      · split
        · split <;> rfl
        · rfl

/-- A fully framed record whose tag is none of the six known tags makes
`ReadRecord` return the Go `(nil, nil)` outcome: no record and no error. -/
theorem readRecord_unknown {f : FileStream}
    (h8 : 8 ≤ f.avail) (hb : f.hdrLen ≤ f.avail - 8)
    (h2 : f.hdrType ≠ UNIFIED2_PACKET) (h7 : f.hdrType ≠ UNIFIED2_IDS_EVENT)
    (h72 : f.hdrType ≠ UNIFIED2_IDS_EVENT_IP6) (h104 : f.hdrType ≠ UNIFIED2_IDS_EVENT_V2)
    (h105 : f.hdrType ≠ UNIFIED2_IDS_EVENT_IP6_V2) (h110 : f.hdrType ≠ UNIFIED2_EXTRA_DATA) :
    ReadRecord f = (Except.ok none, { f with pos := f.pos + 8 + f.hdrLen }) := by
  rw [ReadRecord, readRawRecord_ok h8 hb]
  simp [IsEventType, h2, h7, h72, h104, h105, h110]

/-! ## Claims -/

/-- C1 (counterexample): a stream holding a complete 8-byte header that
declares a 2-byte body, with zero body bytes following, is a stream with
"a complete 8-byte header but fewer than `length` body bytes"; yet
`ReadRawRecord` returns `io.EOF` (the clean end-of-stream value), not the
Incomplete outcome `io.ErrUnexpectedEOF`: the single `file.Read` into the
body buffer finds no bytes at all and reports `io.EOF`, which the code
returns unchanged. -/
theorem claim_C1_counterexample :
    (ReadRawRecord ⟨[0, 0, 0, 7, 0, 0, 0, 2], 0⟩).1 = Except.error ReadErr.eof ∧
    (Except.error ReadErr.eof : Except ReadErr RawRecord) ≠
      Except.error ReadErr.unexpectedEof ∧
    FileStream.hdrLen ⟨[0, 0, 0, 7, 0, 0, 0, 2], 0⟩ = 2 ∧
    FileStream.avail ⟨[0, 0, 0, 7, 0, 0, 0, 2], 0⟩ = 8 := by
  refine ⟨by decide, by decide, by decide, by decide⟩

/-- C1 (amended): with a complete header available but fewer than
`length` body bytes following it, `ReadRawRecord` always leaves the
stream position equal to its value before the call; the outcome is the
Incomplete value `io.ErrUnexpectedEOF` when at least one body byte is
available, but the clean end-of-stream value `io.EOF` when no body byte
follows the header. -/
theorem claim_C1 {f : FileStream} (h8 : 8 ≤ f.avail) (hb : f.avail - 8 < f.hdrLen) :
    (ReadRawRecord f).1 =
      Except.error (if f.avail = 8 then ReadErr.eof else ReadErr.unexpectedEof) ∧
    (ReadRawRecord f).2 = f := by
  by_cases hz : f.avail = 8
  · rw [readRawRecord_body_eof hz (by omega)]
    simp [hz]
  · rw [readRawRecord_partial_body (by omega) hb]
    simp [hz]

/-- C1 witness: header declaring 2 body bytes, one body byte present. -/
theorem claim_C1_witness :
    (8 ≤ FileStream.avail ⟨[0, 0, 0, 7, 0, 0, 0, 2, 9], 0⟩ ∧
      FileStream.avail ⟨[0, 0, 0, 7, 0, 0, 0, 2, 9], 0⟩ - 8 <
        FileStream.hdrLen ⟨[0, 0, 0, 7, 0, 0, 0, 2, 9], 0⟩) ∧
    (ReadRawRecord ⟨[0, 0, 0, 7, 0, 0, 0, 2, 9], 0⟩).1 =
      Except.error (if FileStream.avail ⟨[0, 0, 0, 7, 0, 0, 0, 2, 9], 0⟩ = 8
        then ReadErr.eof else ReadErr.unexpectedEof) ∧
    (ReadRawRecord ⟨[0, 0, 0, 7, 0, 0, 0, 2, 9], 0⟩).2 =
      ⟨[0, 0, 0, 7, 0, 0, 0, 2, 9], 0⟩ :=
  ⟨⟨by decide, by decide⟩, claim_C1 (by decide) (by decide)⟩

/-- C2: with zero bytes available at the current position, `ReadRawRecord`
returns the clean end-of-stream outcome `io.EOF` and the stream is
unchanged (so the position is unchanged). -/
theorem claim_C2 {f : FileStream} (h : f.avail = 0) :
    ReadRawRecord f = (Except.error ReadErr.eof, f) :=
  readRawRecord_eof h

/-- C2 witness: empty stream, and a stream positioned at its end. -/
theorem claim_C2_witness :
    FileStream.avail ⟨[], 0⟩ = 0 ∧
    ReadRawRecord ⟨[], 0⟩ = (Except.error ReadErr.eof, ⟨[], 0⟩) :=
  ⟨by decide, claim_C2 (by decide)⟩

/-- C3: a fully framed record (complete header and complete body) whose
type tag is none of {2, 7, 72, 104, 105, 110} makes `ReadRecord` return
the Unknown outcome — the Go `(nil, nil)`, modelled `Except.ok none` —
and not an error. -/
theorem claim_C3 {f : FileStream}
    (h8 : 8 ≤ f.avail) (hb : f.hdrLen ≤ f.avail - 8)
    (h2 : f.hdrType ≠ UNIFIED2_PACKET) (h7 : f.hdrType ≠ UNIFIED2_IDS_EVENT)
    (h72 : f.hdrType ≠ UNIFIED2_IDS_EVENT_IP6) (h104 : f.hdrType ≠ UNIFIED2_IDS_EVENT_V2)
    (h105 : f.hdrType ≠ UNIFIED2_IDS_EVENT_IP6_V2) (h110 : f.hdrType ≠ UNIFIED2_EXTRA_DATA) :
    (ReadRecord f).1 = Except.ok none := by
  rw [readRecord_unknown h8 hb h2 h7 h72 h104 h105 h110]

/-- C3 witness: a framed record with tag 3 and a 1-byte body. -/
theorem claim_C3_witness :
    (ReadRecord ⟨[0, 0, 0, 3, 0, 0, 0, 1, 42], 0⟩).1 = Except.ok none :=
  claim_C3 (by decide) (by decide) (by decide) (by decide) (by decide)
    (by decide) (by decide) (by decide)

/-- C8 (counterexample): `ReadRecord` on a stream holding one fully
framed event record with an empty body returns the decoding-failure
outcome (a non-success outcome) with the stream position advanced by 8,
not equal to its value on entry (0): the raw record was consumed before
decoding failed, and nothing seeks back. -/
theorem claim_C8_counterexample :
    (ReadRecord ⟨[0, 0, 0, 7, 0, 0, 0, 0], 0⟩).1 =
      Except.error ReadRecErr.decodingError ∧
    (ReadRecord ⟨[0, 0, 0, 7, 0, 0, 0, 0], 0⟩).2.pos = 8 ∧
    (8 : Nat) ≠ 0 := by
  refine ⟨by decide, by decide, by decide⟩

/-- C8 (amended): `ReadRawRecord` either fails leaving the stream exactly
as on entry, or succeeds with the position advanced exactly past the
framed record; `ReadRecord` moves the stream exactly as its inner
`ReadRawRecord` call does, so on a framing failure its position is
unchanged, while on framing success — whether decoding succeeds, fails,
or the tag is unknown — the position has advanced exactly past the
framed record, never partially. -/
theorem claim_C8 (f : FileStream) :
    ((∃ e, (ReadRawRecord f).1 = Except.error e) ∧ (ReadRawRecord f).2 = f ∧
        (ReadRecord f).2 = f) ∨
    ((ReadRawRecord f).1 = Except.ok
        { «Type» := f.hdrType, Data := (f.content.drop (f.pos + 8)).take f.hdrLen } ∧
      (ReadRawRecord f).2 = { f with pos := f.pos + 8 + f.hdrLen } ∧
      (ReadRecord f).2 = { f with pos := f.pos + 8 + f.hdrLen }) := by
  rcases readRawRecord_cases f with ⟨he, hs⟩ | ⟨hok, -, hadv⟩
  · exact Or.inl ⟨he, hs, by rw [readRecord_stream, hs]⟩
  · exact Or.inr ⟨hok, hadv, by rw [readRecord_stream, hadv]⟩

/-- C9: when `ReadRawRecord` succeeds, the returned record's `Data` holds
exactly `Len` bytes — the length field of the header just read — and the
stream position has advanced by exactly `8 + Len` over the unchanged
contents, so it sits at the boundary right after the framed record. -/
theorem claim_C9 {f : FileStream} {r : RawRecord}
    (h : (ReadRawRecord f).1 = Except.ok r) :
    r.Data.length = f.hdrLen ∧
    (ReadRawRecord f).2.pos = f.pos + (8 + f.hdrLen) ∧
    (ReadRawRecord f).2.content = f.content := by
  rcases readRawRecord_cases f with ⟨⟨e, he⟩, -⟩ | ⟨hok, hle, hadv⟩
  · rw [he] at h
    cases h
  · rw [hok] at h
    cases h
    refine ⟨?_, by rw [hadv]; dsimp only; omega, by rw [hadv]⟩
    have havail : f.avail = f.content.length - f.pos := rfl
    simp only [RawRecord.mk.injEq]
    simp [List.length_take, List.length_drop]
    omega

/-- C9 witness: a packet-tagged record with a 3-byte body. -/
theorem claim_C9_witness :
    (RawRecord.mk 2 [170, 187, 204]).Data.length =
      FileStream.hdrLen ⟨[0, 0, 0, 2, 0, 0, 0, 3, 170, 187, 204], 0⟩ ∧
    (ReadRawRecord ⟨[0, 0, 0, 2, 0, 0, 0, 3, 170, 187, 204], 0⟩).2.pos =
      (FileStream.mk [0, 0, 0, 2, 0, 0, 0, 3, 170, 187, 204] 0).pos +
        (8 + FileStream.hdrLen ⟨[0, 0, 0, 2, 0, 0, 0, 3, 170, 187, 204], 0⟩) ∧
    (ReadRawRecord ⟨[0, 0, 0, 2, 0, 0, 0, 3, 170, 187, 204], 0⟩).2.content =
      [0, 0, 0, 2, 0, 0, 0, 3, 170, 187, 204] :=
  claim_C9 (by decide)

/-- C4: for every long-enough body, the event decoder produces addresses
of exactly 4 bytes for the v4 tags 7 and 104 and exactly 16 bytes for
the v6 tags 72 and 105, with the address bytes and all nine preamble
fields equal to the corresponding big-endian bytes of the body; and the
concrete tag-7 example body (sensorId=1, eventId=2, eventSecond=1000000,
eventMicrosecond=500000, signatureId=2019, generatorId=1,
signatureRevision=5, classificationId=9, priority=3,
ipSource=[10,0,0,1], ipDestination=[10,0,0,2], sportItype=80,
dportIcode=443, protocol=6, impactFlag=0, impact=0, blocked=0) decodes
to exactly those field values with no MPLS/VLAN values. -/
theorem claim_C4 :
    (∀ t, (t = UNIFIED2_IDS_EVENT ∨ t = UNIFIED2_IDS_EVENT_V2) →
      ∀ data : List Nat, eventMinLen t ≤ data.length →
      ∃ ev, DecodeEventRecord t data = some ev ∧
        ev.IpSource.length = 4 ∧ ev.IpDestination.length = 4 ∧
        ev.IpSource = (data.drop 36).take 4 ∧
        ev.IpDestination = (data.drop 40).take 4 ∧
        ev.SensorId = beVal (data.take 4) ∧
        ev.EventId = beVal ((data.drop 4).take 4) ∧
        ev.EventSecond = beVal ((data.drop 8).take 4) ∧
        ev.EventMicrosecond = beVal ((data.drop 12).take 4) ∧
        ev.SignatureId = beVal ((data.drop 16).take 4) ∧
        ev.GeneratorId = beVal ((data.drop 20).take 4) ∧
        ev.SignatureRevision = beVal ((data.drop 24).take 4) ∧
        ev.ClassificationId = beVal ((data.drop 28).take 4) ∧
        ev.Priority = beVal ((data.drop 32).take 4)) ∧
    (∀ t, (t = UNIFIED2_IDS_EVENT_IP6 ∨ t = UNIFIED2_IDS_EVENT_IP6_V2) →
      ∀ data : List Nat, eventMinLen t ≤ data.length →
      ∃ ev, DecodeEventRecord t data = some ev ∧
        ev.IpSource.length = 16 ∧ ev.IpDestination.length = 16 ∧
        ev.IpSource = (data.drop 36).take 16 ∧
        ev.IpDestination = (data.drop 52).take 16 ∧
        ev.SensorId = beVal (data.take 4) ∧
        ev.EventId = beVal ((data.drop 4).take 4) ∧
        ev.EventSecond = beVal ((data.drop 8).take 4) ∧
        ev.EventMicrosecond = beVal ((data.drop 12).take 4) ∧
        ev.SignatureId = beVal ((data.drop 16).take 4) ∧
        ev.GeneratorId = beVal ((data.drop 20).take 4) ∧
        ev.SignatureRevision = beVal ((data.drop 24).take 4) ∧
        ev.ClassificationId = beVal ((data.drop 28).take 4) ∧
        ev.Priority = beVal ((data.drop 32).take 4)) ∧
    DecodeEventRecord UNIFIED2_IDS_EVENT
      [0,0,0,1, 0,0,0,2, 0,15,66,64, 0,7,161,32, 0,0,7,227, 0,0,0,1,
       0,0,0,5, 0,0,0,9, 0,0,0,3, 10,0,0,1, 10,0,0,2, 0,80, 1,187, 6, 0, 0, 0] =
      some { SensorId := 1, EventId := 2, EventSecond := 1000000,
             EventMicrosecond := 500000, SignatureId := 2019, GeneratorId := 1,
             SignatureRevision := 5, ClassificationId := 9, Priority := 3,
             IpSource := [10,0,0,1], IpDestination := [10,0,0,2],
             SportItype := 80, DportIcode := 443, Protocol := 6,
             ImpactFlag := 0, Impact := 0, Blocked := 0,
             MplsLabel := 0, VlanId := 0 } := by
  refine ⟨?_, ?_, by decide⟩
  · rintro t (rfl | rfl) data h
    · replace h : (52:Nat) ≤ data.length := h
      rw [DecodeEventRecord, decodeEventAux_7 h]
      refine ⟨_, rfl, ?_, ?_, rfl, rfl, rfl, rfl, rfl, rfl, rfl, rfl, rfl, rfl, rfl⟩
      · simp [List.length_take, List.length_drop]
        omega
      · simp [List.length_take, List.length_drop]
        omega
    · replace h : (58:Nat) ≤ data.length := h
      rw [DecodeEventRecord, decodeEventAux_104 h]
      refine ⟨_, rfl, ?_, ?_, rfl, rfl, rfl, rfl, rfl, rfl, rfl, rfl, rfl, rfl, rfl⟩
      · simp [List.length_take, List.length_drop]
        omega
      · simp [List.length_take, List.length_drop]
        omega
  · rintro t (rfl | rfl) data h
    · replace h : (76:Nat) ≤ data.length := h
      rw [DecodeEventRecord, decodeEventAux_72 h]
      refine ⟨_, rfl, ?_, ?_, rfl, rfl, rfl, rfl, rfl, rfl, rfl, rfl, rfl, rfl, rfl⟩
      · simp [List.length_take, List.length_drop]
        omega
      · simp [List.length_take, List.length_drop]
        omega
    · replace h : (82:Nat) ≤ data.length := h
      rw [DecodeEventRecord, decodeEventAux_105 h]
      refine ⟨_, rfl, ?_, ?_, rfl, rfl, rfl, rfl, rfl, rfl, rfl, rfl, rfl, rfl, rfl⟩
      · simp [List.length_take, List.length_drop]
        omega
      · simp [List.length_take, List.length_drop]
        omega

/-- C4 witness: tag 7 on a concrete 52-byte body of zeros. -/
theorem claim_C4_witness :
    ∃ ev, DecodeEventRecord UNIFIED2_IDS_EVENT (List.replicate 52 0) = some ev ∧
      ev.IpSource.length = 4 ∧ ev.IpDestination.length = 4 ∧
      ev.IpSource = ((List.replicate 52 0).drop 36).take 4 ∧
      ev.IpDestination = ((List.replicate 52 0).drop 40).take 4 ∧
      ev.SensorId = beVal ((List.replicate 52 0).take 4) ∧
      ev.EventId = beVal (((List.replicate 52 0).drop 4).take 4) ∧
      ev.EventSecond = beVal (((List.replicate 52 0).drop 8).take 4) ∧
      ev.EventMicrosecond = beVal (((List.replicate 52 0).drop 12).take 4) ∧
      ev.SignatureId = beVal (((List.replicate 52 0).drop 16).take 4) ∧
      ev.GeneratorId = beVal (((List.replicate 52 0).drop 20).take 4) ∧
      ev.SignatureRevision = beVal (((List.replicate 52 0).drop 24).take 4) ∧
      ev.ClassificationId = beVal (((List.replicate 52 0).drop 28).take 4) ∧
      ev.Priority = beVal (((List.replicate 52 0).drop 32).take 4) :=
  claim_C4.1 UNIFIED2_IDS_EVENT (Or.inl rfl) (List.replicate 52 0) (by decide)

/-- C5: the event decoder consumes and populates the 4-byte MPLS label
and the 2-byte VLAN id exactly for the v2 tags 104 and 105 (the reader
ends 6 bytes after the Blocked field, the fields holding the big-endian
value of those bytes); for the v1 tags 7 and 72 both fields are zero and
the reader ends immediately after the Blocked field, consuming no bytes
for them. -/
theorem claim_C5 :
    (∀ data : List Nat, 52 ≤ data.length →
      ∃ ev, DecodeEventRecordAux UNIFIED2_IDS_EVENT data = some (ev, data.drop 52) ∧
        ev.MplsLabel = 0 ∧ ev.VlanId = 0) ∧
    (∀ data : List Nat, 76 ≤ data.length →
      ∃ ev, DecodeEventRecordAux UNIFIED2_IDS_EVENT_IP6 data = some (ev, data.drop 76) ∧
        ev.MplsLabel = 0 ∧ ev.VlanId = 0) ∧
    (∀ data : List Nat, 58 ≤ data.length →
      ∃ ev, DecodeEventRecordAux UNIFIED2_IDS_EVENT_V2 data = some (ev, data.drop 58) ∧
        ev.MplsLabel = beVal ((data.drop 52).take 4) ∧
        ev.VlanId = beVal ((data.drop 56).take 2)) ∧
    (∀ data : List Nat, 82 ≤ data.length →
      ∃ ev, DecodeEventRecordAux UNIFIED2_IDS_EVENT_IP6_V2 data = some (ev, data.drop 82) ∧
        ev.MplsLabel = beVal ((data.drop 76).take 4) ∧
        ev.VlanId = beVal ((data.drop 80).take 2)) := by
  refine ⟨?_, ?_, ?_, ?_⟩ <;> intro data h
  · rw [decodeEventAux_7 h]
    exact ⟨_, rfl, rfl, rfl⟩
  · rw [decodeEventAux_72 h]
    exact ⟨_, rfl, rfl, rfl⟩
  · rw [decodeEventAux_104 h]
    exact ⟨_, rfl, rfl, rfl⟩
  · rw [decodeEventAux_105 h]
    exact ⟨_, rfl, rfl, rfl⟩

/-- C5 witness: tag 7 on a concrete 52-byte body. -/
theorem claim_C5_witness :
    ∃ ev, DecodeEventRecordAux UNIFIED2_IDS_EVENT (List.replicate 52 3) =
        some (ev, (List.replicate 52 3).drop 52) ∧
      ev.MplsLabel = 0 ∧ ev.VlanId = 0 :=
  claim_C5.1 (List.replicate 52 3) (by decide)

/-- C6: for every body at least as long as the fixed header, the packet
and extra-data decoders succeed and the decoded `Data` tail is exactly
the bytes of the body from the fixed header size onward — length
`L - fixed-header-size` — independent of the record's own declared
length field (which is just one more decoded field of the body). -/
theorem claim_C6 :
    (∀ data : List Nat, PACKET_RECORD_HDR_LEN ≤ data.length →
      ∃ p, DecodePacketRecord data = some p ∧
        p.Data = data.drop PACKET_RECORD_HDR_LEN ∧
        p.Data.length = data.length - PACKET_RECORD_HDR_LEN) ∧
    (∀ data : List Nat, EXTRA_DATA_RECORD_HDR_LEN ≤ data.length →
      ∃ x, DecodeExtraDataRecord data = some x ∧
        x.Data = data.drop EXTRA_DATA_RECORD_HDR_LEN ∧
        x.Data.length = data.length - EXTRA_DATA_RECORD_HDR_LEN) := by
  constructor <;> intro data h
  · rw [decodePacket_of_le h]
    exact ⟨_, rfl, rfl, by simp [List.length_drop, PACKET_RECORD_HDR_LEN]⟩
  · rw [decodeExtraData_of_le h]
    exact ⟨_, rfl, rfl, by simp [List.length_drop, EXTRA_DATA_RECORD_HDR_LEN]⟩

/-- C6 witness: the spec §8 packet example — a body of the 28-byte fixed
header followed by the 3 bytes [0xAA, 0xBB, 0xCC]. -/
theorem claim_C6_witness :
    ∃ p, DecodePacketRecord (List.replicate 28 1 ++ [170, 187, 204]) = some p ∧
      p.Data = (List.replicate 28 1 ++ [170, 187, 204]).drop PACKET_RECORD_HDR_LEN ∧
      p.Data.length =
        (List.replicate 28 1 ++ [170, 187, 204]).length - PACKET_RECORD_HDR_LEN :=
  claim_C6.1 (List.replicate 28 1 ++ [170, 187, 204]) (by decide)

/-- C7: a body shorter than the fixed-size fields its tag requires makes
every decoder fail with no record value at all: the event decoder for
each of the four event tags (52/76/58/82 bytes), the packet decoder
below 28 bytes, the extra-data decoder below 32 bytes. -/
theorem claim_C7 :
    (∀ t, IsEventType t = true → ∀ data : List Nat, data.length < eventMinLen t →
      DecodeEventRecord t data = none) ∧
    (∀ data : List Nat, data.length < PACKET_RECORD_HDR_LEN →
      DecodePacketRecord data = none) ∧
    (∀ data : List Nat, data.length < EXTRA_DATA_RECORD_HDR_LEN →
      DecodeExtraDataRecord data = none) :=
  ⟨fun _ ht _ h => decodeEvent_none_of_short ht h,
   fun _ h => decodePacket_none_of_short h,
   fun _ h => decodeExtraData_none_of_short h⟩

/-- C7 witness: tag 7 with a 51-byte body fails. -/
theorem claim_C7_witness :
    DecodeEventRecord UNIFIED2_IDS_EVENT (List.replicate 51 0) = none :=
  claim_C7.1 UNIFIED2_IDS_EVENT (by decide) (List.replicate 51 0) (by decide)

/-- C10: the event decoder never checks that its tag is an event tag:
called directly with any non-event tag and at least 44 bytes it
succeeds, leaves both addresses empty (`nil`), parses the six mid fields
from the bytes immediately after the 36-byte preamble, and sets no
MPLS/VLAN values. -/
theorem claim_C10 {t : Nat} (ht : IsEventType t = false)
    {data : List Nat} (h : 44 ≤ data.length) :
    ∃ ev, DecodeEventRecord t data = some ev ∧
      ev.IpSource = [] ∧ ev.IpDestination = [] ∧
      ev.SportItype = beVal ((data.drop 36).take 2) ∧
      ev.DportIcode = beVal ((data.drop 38).take 2) ∧
      ev.Protocol = beVal ((data.drop 40).take 1) ∧
      ev.ImpactFlag = beVal ((data.drop 41).take 1) ∧
      ev.Impact = beVal ((data.drop 42).take 1) ∧
      ev.Blocked = beVal ((data.drop 43).take 1) ∧
      ev.MplsLabel = 0 ∧ ev.VlanId = 0 := by
  have hne : t ≠ UNIFIED2_IDS_EVENT ∧ t ≠ UNIFIED2_IDS_EVENT_IP6 ∧
      t ≠ UNIFIED2_IDS_EVENT_V2 ∧ t ≠ UNIFIED2_IDS_EVENT_IP6_V2 := by
    simpa [IsEventType, not_or] using ht
  rw [DecodeEventRecord, decodeEventAux_other hne.1 hne.2.1 hne.2.2.1 hne.2.2.2 h]
  exact ⟨_, rfl, rfl, rfl, rfl, rfl, rfl, rfl, rfl, rfl, rfl, rfl⟩

/-- C10 witness: the non-event tag 3 on a concrete 44-byte body. -/
theorem claim_C10_witness :
    ∃ ev, DecodeEventRecord 3 (List.replicate 44 0) = some ev ∧
      ev.IpSource = [] ∧ ev.IpDestination = [] ∧
      ev.SportItype = beVal (((List.replicate 44 0).drop 36).take 2) ∧
      ev.DportIcode = beVal (((List.replicate 44 0).drop 38).take 2) ∧
      ev.Protocol = beVal (((List.replicate 44 0).drop 40).take 1) ∧
      ev.ImpactFlag = beVal (((List.replicate 44 0).drop 41).take 1) ∧
      ev.Impact = beVal (((List.replicate 44 0).drop 42).take 1) ∧
      ev.Blocked = beVal (((List.replicate 44 0).drop 43).take 1) ∧
      ev.MplsLabel = 0 ∧ ev.VlanId = 0 :=
  claim_C10 (by decide) (by decide)

end Unified2
